import Mathlib

/-!
Verification development for the fitnesswithfun workout-plan tool-calling
core: the in-process exercise filter (workout_tool.py), the MCP tool server
search (kaggle_mcp_server.py), the MCP client bridge (mcp_client_tool.py),
and the agent wrapper's session / event-extraction logic (adk_client.py).

Shallow embedding notes:
* Dataset cells are modelled by `Cell`: SQLite / pandas scalar values.
  `Cell.nan` models a Python float NaN (the sole non-finite sentinel the
  code in this repository tests for, via `math.isnan`); finite floats are
  modelled as rationals.  SQLite cannot store a NaN (binding a NaN stores
  NULL), so theorems about rows fetched from SQLite carry a NaN-freedom
  hypothesis on the database contents.
* The remote round trip of the MCP client is modelled by an `Except`
  outcome parameter: `.error` covers every exception the Python `try`
  block can see (connection failure, the ValueError for a missing tool
  name, JSON decode errors re-raised, and the 30-second
  `future.result(timeout=30)` expiry).
-/

/-- A scalar dataset cell: SQLite storage value or pandas scalar.
`nan` is a Python float NaN; `num` is a finite float (as a rational). -/
inductive Cell where
  | null
  | int (n : Int)
  | num (q : Rat)
  | nan
  | str (s : String)
deriving DecidableEq, Repr

/-- An exercise row: an association list from column name to cell, as
produced by `dict(row)` (sqlite3.Row) or `DataFrame.to_dict("records")`. -/
abbrev Row := List (String × Cell)

/-- A row is free of NaN entries. -/
def rowNoNan (r : Row) : Bool :=
  r.all (fun kv => kv.2 != Cell.nan)

/-- The optional filter arguments shared by every search entry point
(age, daily_goal, intensity, mood, restrictions, exercise_minutes). -/
structure Filters where
  age : Option Int
  daily_goal : Option String
  intensity : Option String
  mood : Option String
  restrictions : Option String
  exercise_minutes : Option Int
deriving DecidableEq, Repr

/-- Python truthiness for an optional string filter: `if intensity:` is
false both for None and for the empty string. -/
def truthy : Option String → Option String
  | some s => if s = "" then none else some s
  | none => none

/-- Python's `str.lower()` (per-character lowering, kernel-reducible
unlike `String.toLower`'s byte-position implementation). -/
def strToLower (s : String) : String := ⟨s.data.map Char.toLower⟩

/-- `hay` starts with `needle` (character list version). -/
def charsStartWith : List Char → List Char → Bool
  | _, [] => true
  | [], _ :: _ => false
  | h :: hs, n :: ns => h == n && charsStartWith hs ns

/-- `needle` occurs as a contiguous substring of `hay` (character lists). -/
def charsContain (hay needle : List Char) : Bool :=
  charsStartWith hay needle ||
    match hay with
    | [] => false
    | _ :: t => charsContain t needle

/-- Case-insensitive substring test: both `LOWER(col) LIKE '%pat%'` with a
lower-cased pattern (SQLite path) and
`.str.lower().str.contains(pat_lower)` (pandas path, for a literal
pattern) are containment of the lower-cased pattern in the lower-cased
text. -/
def containsCI (hay pat : String) : Bool :=
  charsContain (strToLower hay).toList (strToLower pat).toList

/-- First candidate column name present in the table's columns — the
column-presence probing idiom (`if c1 in columns: ... elif c2 ...` or
`for col in [...]: if col in columns: ...; break`). -/
def probeCol (cands : List String) (columns : List String) : Option String :=
  cands.find? (fun c => decide (c ∈ columns))

/-- One filter condition: match the pattern against this column;
`negated = true` for the restriction-exclusion condition. -/
structure Cond where
  col : String
  pat : String
  negated : Bool
deriving DecidableEq, Repr

/-- Build a single probe-based condition, skipped entirely when the
filter is absent/empty or when no candidate column exists. -/
def probeCond (cands cols : List String) (filt : Option String)
    (negated : Bool) : List Cond :=
  match truthy filt with
  | none => []
  | some s =>
    match probeCol cands cols with
    | none => []
    | some c => [⟨c, strToLower s, negated⟩]

/-- Conditions built by `workout_tool.suggest_workout_plan`
(workout_tool.py lines 69-101): intensity probes
{intensity, difficulty, level}; goal probes
{goal, type, category, name, title}; restriction exclusion probes
{equipment, type, category, name}. -/
def workoutConds (cols : List String) (f : Filters) : List Cond :=
  probeCond ["intensity", "difficulty", "level"] cols f.intensity false ++
  probeCond ["goal", "type", "category", "name", "title"] cols f.daily_goal false ++
  probeCond ["equipment", "type", "category", "name"] cols f.restrictions true

/-- Text SQLite's `LOWER(col)` sees for a cell (non-text values are
converted to their text representation; NULL is handled separately). -/
def cellSqlText : Cell → String
  | .int n => toString n
  | .num q => toString q
  | .str s => s
  | .null => ""
  | .nan => ""

/-- Three-valued result of `LOWER(col) LIKE '%pat%'` in SQLite:
`none` when the cell is NULL (SQL NULL propagates through LIKE and
NOT LIKE alike, excluding the row in both cases). -/
def sqlLike (v : Cell) (pat : String) : Option Bool :=
  match v with
  | .null => none
  | c => some (containsCI (cellSqlText c) pat)

/-- A row satisfies one SQL condition (SQL three-valued logic: a NULL
comparison never satisfies the WHERE clause). -/
def rowSatSql (r : Row) (c : Cond) : Bool :=
  match sqlLike ((r.lookup c.col).getD Cell.null) c.pat with
  | none => false
  | some b => if c.negated then !b else b

/-- A row passes the whole SQL WHERE clause. -/
def rowMatchesSql (conds : List Cond) (r : Row) : Bool :=
  conds.all (rowSatSql r)

/-- Result mapping of the in-process fallback tool. -/
structure WorkoutResult where
  exercises : List Row
  count : Nat
  filters_applied : Filters
deriving DecidableEq, Repr

/-- Shallow embedding of `workout_tool.suggest_workout_plan`
(workout_tool.py lines 26-131).  `db` is the `exercises` table contents
in order, `cols` its column list (from `PRAGMA table_info`).  The SQL
query filters by the probed conditions and truncates to `limit`; if the
filtered result is empty, an unfiltered `SELECT * ... LIMIT limit`
re-query supplies default exercises. -/
def suggest_workout_plan (db : List Row) (cols : List String)
    (f : Filters) (limit : Nat) : WorkoutResult :=
  let conds := workoutConds cols f
  let exercises := (db.filter (rowMatchesSql conds)).take limit
  let exercises := if exercises.isEmpty then db.take limit else exercises
  { exercises := exercises
    count := exercises.length
    filters_applied := f }

/-- Conditions built by the SQLite branch of
`kaggle_mcp_server.search_exercises` (kaggle_mcp_server.py lines
242-265).  Note: this branch probes only {intensity, difficulty} for the
intensity filter — it has no `level` fallback, unlike the other two
filter implementations. -/
def sqliteServerConds (cols : List String) (f : Filters) : List Cond :=
  probeCond ["intensity", "difficulty"] cols f.intensity false ++
  probeCond ["goal", "type", "category", "name", "title"] cols f.daily_goal false ++
  probeCond ["equipment", "type", "category", "name"] cols f.restrictions true

/-- Conditions built by the pandas branch of
`kaggle_mcp_server.search_exercises` (kaggle_mcp_server.py lines
314-342): same candidate column lists as the in-process tool. -/
def pandasConds (cols : List String) (f : Filters) : List Cond :=
  probeCond ["intensity", "difficulty", "level"] cols f.intensity false ++
  probeCond ["goal", "type", "category", "name", "title"] cols f.daily_goal false ++
  probeCond ["equipment", "type", "category", "name"] cols f.restrictions true

/-- What `astype(str)` renders a pandas cell as (NaN becomes the string
"nan", a missing/None object cell the string "None"). -/
def cellPyStr : Cell → String
  | .null => "None"
  | .nan => "nan"
  | .int n => toString n
  | .num q => toString q
  | .str s => s

/-- A row satisfies one pandas condition:
`df[col].astype(str).str.lower().str.contains(pat, na=False)`, negated
with `~` for the restriction exclusion. -/
def rowSatPandas (r : Row) (c : Cond) : Bool :=
  let b := containsCI (cellPyStr ((r.lookup c.col).getD Cell.null)) c.pat
  if c.negated then !b else b

/-- A row passes all pandas filter conditions. -/
def rowMatchesPandas (conds : List Cond) (r : Row) : Bool :=
  conds.all (rowSatPandas r)

/-- The per-row cleaning loop of `search_exercises` (kaggle_mcp_server.py
lines 355-366): drop keys whose value is None or a NaN float (the numpy
`.item()` unwrapping is the identity in this model). -/
def cleanRowTop (r : Row) : Row :=
  r.filter (fun kv => kv.2 != Cell.null && kv.2 != Cell.nan)

/-- Result mapping of the MCP server's `search_exercises` tool. -/
structure SearchResult where
  exercises : List Row
  count : Nat
  source : String
  filters_applied : Filters
  error : Option String
deriving DecidableEq, Repr

/-- The `use_sqlite` branch of `search_exercises` (kaggle_mcp_server.py
lines 232-288): query the local table, return the rows when any were
found (`if exercises: return ...`), and fall through (`none`) when the
query matched nothing. -/
def sqliteBranchHit (db : List Row) (scols : List String) (f : Filters)
    (limit : Nat) : Option (List Row) :=
  let ex := (db.filter (rowMatchesSql (sqliteServerConds scols f))).take limit
  if ex.isEmpty then none else some ex

/-- The Kaggle-direct path of `search_exercises` (kaggle_mcp_server.py
lines 290-380): a failing dataset load becomes the error mapping; a
loaded DataFrame is filtered and truncated, the unfiltered
`df.head(limit)` sample substitutes when nothing matched, and the
NaN/None cleaning loop runs on whichever rows are returned. -/
def kagglePath (dfOutcome : Except String (List Row)) (pcols : List String)
    (f : Filters) (limit : Nat) : SearchResult :=
  match dfOutcome with
  | .error e =>
    { exercises := [], count := 0, source := "error", filters_applied := f
      error := some ("Failed to load dataset from Kaggle: " ++ e) }
  | .ok df =>
    let ex := (df.filter (rowMatchesPandas (pandasConds pcols f))).take limit
    let ex := if ex.isEmpty then df.take limit else ex
    let cleaned := ex.map cleanRowTop
    { exercises := cleaned, count := cleaned.length, source := "kaggle_direct"
      filters_applied := f, error := none }

/-- Shallow embedding of `kaggle_mcp_server.search_exercises`
(kaggle_mcp_server.py lines 200-380).
`sqliteDb = none` models the FileNotFoundError when the local database is
absent (caught with `pass`); `dfOutcome = .error e` models any exception
from `load_dataset_from_kaggle`.  `scols` / `pcols` are the SQLite
table's and the DataFrame's column lists. -/
def search_exercises (useSqlite : Bool) (sqliteDb : Option (List Row))
    (scols : List String) (dfOutcome : Except String (List Row))
    (pcols : List String) (f : Filters) (limit : Nat) : SearchResult :=
  match (if useSqlite then
           sqliteDb.bind (fun db => sqliteBranchHit db scols f limit)
         else none) with
  | some ex =>
    { exercises := ex, count := ex.length, source := "sqlite"
      filters_applied := f, error := none }
  | none => kagglePath dfOutcome pcols f limit

mutual
/-- A JSON-like Python value as handled by `_clean_json_result`
(mcp_client_tool.py lines 22-41): None, bool, int, finite float
(rational), float NaN, string, list, dict. -/
inductive JVal where
  | null
  | bool (b : Bool)
  | int (n : Int)
  | num (q : Rat)
  | nan
  | str (s : String)
  | arr (items : JList)
  | obj (fields : JFields)
deriving DecidableEq, Repr

/-- A Python list of JSON-like values. -/
inductive JList where
  | nil
  | cons (hd : JVal) (tl : JList)
deriving DecidableEq, Repr

/-- A Python dict of JSON-like values (insertion-ordered key/value
pairs). -/
inductive JFields where
  | nil
  | cons (key : String) (val : JVal) (tl : JFields)
deriving DecidableEq, Repr
end

/-- The `v is None or (isinstance(v, float) and math.isnan(v))` test that
`_clean_json_result` uses to drop dict values and list items. -/
def isDropped : JVal → Bool
  | .null => true
  | .nan => true
  | _ => false

mutual
/-- Shallow embedding of `mcp_client_tool._clean_json_result`
(mcp_client_tool.py lines 22-41): dicts drop None/NaN values and clean
the rest, lists drop None/NaN items and clean the rest, a bare NaN
becomes None, everything else is returned as-is. -/
def _clean_json_result : JVal → JVal
  | .obj fs => .obj (cleanFields fs)
  | .arr xs => .arr (cleanItems xs)
  | .nan => .null
  | v => v

/-- The list comprehension of `_clean_json_result`. -/
def cleanItems : JList → JList
  | .nil => .nil
  | .cons v t =>
    if isDropped v then cleanItems t
    else .cons (_clean_json_result v) (cleanItems t)

/-- The dict comprehension of `_clean_json_result`. -/
def cleanFields : JFields → JFields
  | .nil => .nil
  | .cons k v t =>
    if isDropped v then cleanFields t
    else .cons k (_clean_json_result v) (cleanFields t)
end

mutual
/-- A value contains no NaN float and no None, at any nesting depth. -/
def noSentinels : JVal → Bool
  | .null => false
  | .nan => false
  | .arr xs => noSentinelsList xs
  | .obj fs => noSentinelsFields fs
  | _ => true

/-- All items of the list are sentinel-free. -/
def noSentinelsList : JList → Bool
  | .nil => true
  | .cons v t => noSentinels v && noSentinelsList t

/-- All values of the dict are sentinel-free. -/
def noSentinelsFields : JFields → Bool
  | .nil => true
  | .cons _ v t => noSentinels v && noSentinelsFields t
end

/-- Look a key up in a JSON dict (first occurrence). -/
def JFields.lookup : JFields → String → Option JVal
  | .nil, _ => none
  | .cons k v t, k' => if k = k' then some v else JFields.lookup t k'

/-- Build a JSON dict from an association list. -/
def JFields.ofList : List (String × JVal) → JFields
  | [] => .nil
  | (k, v) :: t => .cons k v (JFields.ofList t)

/-- The keyword arguments of `suggest_workout_plan_via_mcp`
(mcp_client_tool.py lines 93-100): six optional filters plus the `limit`
argument, which defaults to 10 and is never None. -/
structure McpArgs where
  age : Option Int
  daily_goal : Option String
  intensity : Option String
  mood : Option String
  restrictions : Option String
  exercise_minutes : Option Int
  limit : Int
deriving DecidableEq, Repr

/-- The literal `arguments` dict built at mcp_client_tool.py lines
110-118, before None values are removed: each key is present, optional
values still wrapped. -/
def argPairs (a : McpArgs) : List (String × Option JVal) :=
  [("age", a.age.map JVal.int),
   ("daily_goal", a.daily_goal.map JVal.str),
   ("intensity", a.intensity.map JVal.str),
   ("mood", a.mood.map JVal.str),
   ("restrictions", a.restrictions.map JVal.str),
   ("exercise_minutes", a.exercise_minutes.map JVal.int),
   ("limit", some (JVal.int a.limit))]

/-- The None-dropping dict comprehension at mcp_client_tool.py line 120:
`{k: v for k, v in arguments.items() if v is not None}`. -/
def droppedArgs (a : McpArgs) : List (String × JVal) :=
  (argPairs a).filterMap (fun kv => kv.2.map (fun v => (kv.1, v)))

/-- The well-formed error mapping returned by the `except` block of
`suggest_workout_plan_via_mcp` (mcp_client_tool.py lines 155-163). -/
def mcpErrorResult (msg : String) (args : List (String × JVal)) : JVal :=
  .obj (JFields.ofList
    [("error", .str msg),
     ("exercises", .arr .nil),
     ("count", .int 0),
     ("filters_applied", .obj (JFields.ofList args))])

/-- Shallow embedding of `suggest_workout_plan_via_mcp`
(mcp_client_tool.py lines 93-163).  `outcome` is the full remote round
trip (`call_kaggle_mcp_tool` driven on either event-loop dispatch path):
`.error` stands for any exception it raises — connection failure, the
missing-tool ValueError, a re-raised tool error, or the 30-second
`future.result` timeout.  `parse` models `json.loads` on a string result
(`none` = JSONDecodeError, which the same `except` block catches). -/
def suggest_workout_plan_via_mcp (a : McpArgs)
    (outcome : Except String JVal) (parse : String → Option JVal) : JVal :=
  let args := droppedArgs a
  match outcome with
  | .error e => mcpErrorResult ("Failed to query Kaggle dataset via MCP: " ++ e) args
  | .ok r =>
    match _clean_json_result r with
    | .str s =>
      match parse s with
      | some v => v
      | none => mcpErrorResult
          "Failed to query Kaggle dataset via MCP: JSONDecodeError" args
    | v => v

/-- Process-wide state of `AdkSummarizer`: the `_workout_sessions` dict
(username → session id) plus a counter standing for the fresh-UUID
supply of `_new_session_id`. -/
structure SessState where
  sessions : String → Option String
  counter : Nat

/-- The fresh session identifier minted by `_new_session_id` for the
`counter`-th allocation (adk_client.py lines 86-92; a uuid4 in the
source, a distinct numbered token in the model). -/
def mkSessionId (counter : Nat) : String :=
  "session-" ++ toString counter

/-- Shallow embedding of `AdkSummarizer._get_workout_session_id`
(adk_client.py lines 109-119): if the request is not a follow-up, or the
username has no stored session, mint a fresh identifier and store it
(replacing any old entry); otherwise return the stored identifier with
the state untouched. -/
def getWorkoutSessionId (st : SessState) (username : String)
    (isFollowUp : Bool) : String × SessState :=
  match isFollowUp, st.sessions username with
  | true, some sid => (sid, st)
  | _, _ =>
    let sid := mkSessionId st.counter
    (sid,
     { sessions := fun u => if u = username then some sid else st.sessions u
       counter := st.counter + 1 })

/-- The username resolution of `AdkSummarizer.generate_workout_plan`
(adk_client.py line 137): `user_data.get("username", "anonymous")`. -/
def planUsername (userData : List (String × String)) : String :=
  (userData.lookup "username").getD "anonymous"

/-- The session-resolution step of `AdkSummarizer.generate_workout_plan`
(adk_client.py lines 121-141): resolve the username (defaulting to
"anonymous") and get-or-create its workout session. -/
def generatePlanSession (st : SessState) (userData : List (String × String))
    (isFollowUp : Bool) : String × SessState :=
  getWorkoutSessionId st (planUsername userData) isFollowUp

/-- One part of an ADK event's content: an optional text payload and the
`thought` marker. -/
structure EvPart where
  text : Option String
  thought : Bool
deriving DecidableEq, Repr

/-- An ADK event content: its optional list of parts
(`getattr(event.content, "parts", None) or []`). -/
structure Content where
  parts : Option (List EvPart)
deriving DecidableEq, Repr

/-- An event as `_last_text_chunk` sees it: `getattr(event, "content",
None)` — `none` models an event whose content is absent/falsy. -/
abbrev EventM := Option Content

/-- The per-part test of the comprehension at adk_client.py lines
100-104: the part has a truthy (non-empty) text and is not a thought
fragment. -/
def partOk (p : EvPart) : Bool :=
  (match p.text with
   | some t => t != ""
   | none => false) && !p.thought

/-- The texts collected from one event's content by the comprehension. -/
def eventTexts (c : Content) : List String :=
  ((c.parts.getD []).filter partOk).map (fun p => p.text.getD "")

/-- An event yields a reply: it has content with at least one non-empty,
non-thought text part. -/
def eventQualifies : EventM → Bool
  | none => false
  | some c => !(eventTexts c).isEmpty

/-- The reply rendered from a qualifying event:
`"\n".join(texts).strip()`. -/
def renderEvent (c : Content) : String :=
  (String.intercalate "\n" (eventTexts c)).trim

/-- The reversed scan of `_last_text_chunk`, on the already-reversed
event list. -/
def lastTextChunkAux : List EventM → String
  | [] => ""
  | none :: rest => lastTextChunkAux rest
  | some c :: rest =>
    if (eventTexts c).isEmpty then lastTextChunkAux rest
    else renderEvent c

/-- Shallow embedding of `AdkSummarizer._last_text_chunk` (adk_client.py
lines 94-107): walk `reversed(events)`, skip events without content or
without a qualifying text part, and return the joined, stripped texts of
the first qualifying event found; empty string if none. -/
def lastTextChunk (events : List EventM) : String :=
  lastTextChunkAux events.reverse

/-- The fixed fallback of `AdkSummarizer.summarize` (adk_client.py line
84). -/
def summaryFallback : String :=
  "Summary unavailable. Please double-check your Gemini credentials."

/-- Shallow embedding of `AdkSummarizer.summarize` (adk_client.py lines
65-84): `runOutcome` is the event list produced by the runner, or
`.error` for any exception the `try` block sees; on success the reply is
`_last_text_chunk(events) or ""`, on failure the fixed fallback
message. -/
def summarize (runOutcome : Except String (List EventM)) : String :=
  match runOutcome with
  | .error _ => summaryFallback
  | .ok events => lastTextChunk events

/-! ## Helper lemmas -/

/-- Membership in the None-dropping dict comprehension: `(k, v)` is kept
exactly when `(k, some v)` was in the original mapping. -/
theorem mem_dropNone (l : List (String × Option JVal)) (k : String) (v : JVal) :
    (k, v) ∈ l.filterMap (fun kv => kv.2.map (fun x => (kv.1, x))) ↔
      (k, some v) ∈ l := by
  induction l with
  | nil => simp
  | cons h t ih =>
    obtain ⟨k', o⟩ := h
    cases o <;> simp [ih]

/-- The keys surviving the None-dropping comprehension are exactly the
keys whose value is not None, in order. -/
theorem keys_dropNone (l : List (String × Option JVal)) :
    (l.filterMap (fun kv => kv.2.map (fun x => (kv.1, x)))).map Prod.fst =
      (l.filter (fun kv => kv.2.isSome)).map Prod.fst := by
  induction l with
  | nil => rfl
  | cons h t ih =>
    obtain ⟨k', o⟩ := h
    cases o <;> simp [ih]

/-! ## Claims -/

/-- C5: for every call to the remote-path bridge, the transmitted
argument mapping contains exactly the keys whose values are not None —
a pair `(k, v)` is transmitted iff the built `arguments` dict bound `k`
to the non-None value `v`, and the transmitted key list is exactly the
non-None-valued key list of that dict, in order. -/
theorem C5_transmitted_args_drop_none (a : McpArgs) (k : String) (v : JVal) :
    ((k, v) ∈ droppedArgs a ↔ (k, some v) ∈ argPairs a) ∧
    (droppedArgs a).map Prod.fst =
      ((argPairs a).filter (fun kv => kv.2.isSome)).map Prod.fst :=
  ⟨mem_dropNone (argPairs a) k v, keys_dropNone (argPairs a)⟩

/-- C1: any failing remote round trip (`.error` covers connection
failure, the missing-tool ValueError, decode errors, and the 30-second
bounded-wait expiry) is converted into a well-formed result mapping with
`error` a string, `exercises` the empty list, `count` 0 and
`filters_applied` the None-dropped argument mapping; the bridge is a
total function, so no exception reaches the caller. -/
theorem C1_bridge_catches_remote_failure (a : McpArgs) (e : String)
    (parse : String → Option JVal) :
    ∃ fs : JFields,
      suggest_workout_plan_via_mcp a (.error e) parse = .obj fs ∧
      fs.lookup "error" =
        some (.str ("Failed to query Kaggle dataset via MCP: " ++ e)) ∧
      fs.lookup "exercises" = some (.arr .nil) ∧
      fs.lookup "count" = some (.int 0) ∧
      fs.lookup "filters_applied" =
        some (.obj (JFields.ofList (droppedArgs a))) := by
  refine ⟨_, rfl, ?_, ?_, ?_, ?_⟩ <;> rfl

/-- A sentinel-free value is not dropped by the dict/list
comprehensions. -/
theorem isDropped_eq_false (v : JVal) (h : noSentinels v = true) :
    isDropped v = false := by
  cases v <;> first
    | rfl
    | simp [noSentinels] at h

mutual
/-- Cleaning is the identity on sentinel-free values. -/
def cleanVal_id : (v : JVal) → noSentinels v = true → _clean_json_result v = v
  | .null, h => by simp [noSentinels] at h
  | .nan, h => by simp [noSentinels] at h
  | .bool _, _ => rfl
  | .int _, _ => rfl
  | .num _, _ => rfl
  | .str _, _ => rfl
  | .arr xs, h => by
    have hx : noSentinelsList xs = true := by simpa [noSentinels] using h
    simp [_clean_json_result, cleanItems_id xs hx]
  | .obj fs, h => by
    have hf : noSentinelsFields fs = true := by simpa [noSentinels] using h
    simp [_clean_json_result, cleanFields_id fs hf]

/-- Cleaning is the identity on sentinel-free lists. -/
def cleanItems_id : (xs : JList) → noSentinelsList xs = true → cleanItems xs = xs
  | .nil, _ => rfl
  | .cons v t, h => by
    have hv : noSentinels v = true := by
      have := h
      simp [noSentinelsList] at this
      exact this.1
    have ht : noSentinelsList t = true := by
      have := h
      simp [noSentinelsList] at this
      exact this.2
    simp [cleanItems, isDropped_eq_false v hv, cleanVal_id v hv, cleanItems_id t ht]

/-- Cleaning is the identity on sentinel-free dicts. -/
def cleanFields_id : (fs : JFields) → noSentinelsFields fs = true → cleanFields fs = fs
  | .nil, _ => rfl
  | .cons k v t, h => by
    have hv : noSentinels v = true := by
      have := h
      simp [noSentinelsFields] at this
      exact this.1
    have ht : noSentinelsFields t = true := by
      have := h
      simp [noSentinelsFields] at this
      exact this.2
    simp [cleanFields, isDropped_eq_false v hv, cleanVal_id v hv, cleanFields_id t ht]
end

/-- C7: the sentinel-cleaning transform `_clean_json_result` is the
identity (hence idempotent) on every already-clean structure — one
containing no NaN float and no None at any nesting depth. -/
theorem C7_clean_identity_on_clean (v : JVal) (h : noSentinels v = true) :
    _clean_json_result v = v :=
  cleanVal_id v h

/-- C7 witness: a concrete clean mapping is returned unchanged. -/
theorem C7_clean_identity_on_clean_witness :
    noSentinels (JVal.obj (.cons "exercises"
      (JVal.arr (.cons (JVal.num 2) .nil)) (.cons "count" (JVal.int 1) .nil)))
        = true ∧
    _clean_json_result (JVal.obj (.cons "exercises"
      (JVal.arr (.cons (JVal.num 2) .nil)) (.cons "count" (JVal.int 1) .nil)))
      = JVal.obj (.cons "exercises"
      (JVal.arr (.cons (JVal.num 2) .nil)) (.cons "count" (JVal.int 1) .nil)) :=
  ⟨by decide, C7_clean_identity_on_clean _ (by decide)⟩

/-- After `_get_workout_session_id`, the returned identifier is exactly
the one now stored for the username. -/
theorem getWorkoutSessionId_stores (st : SessState) (u : String) (b : Bool) :
    ((getWorkoutSessionId st u b).2).sessions u =
      some (getWorkoutSessionId st u b).1 := by
  unfold getWorkoutSessionId
  cases b <;> cases h : st.sessions u <;> simp [h]

/-- A follow-up for a username with a stored session returns the stored
identifier and leaves the state untouched. -/
theorem getWorkoutSessionId_reuse (st : SessState) (u sid : String)
    (h : st.sessions u = some sid) :
    getWorkoutSessionId st u true = (sid, st) := by
  unfold getWorkoutSessionId
  simp [h]

/-- C6: a follow-up request for a username with a stored session returns
the stored identifier and leaves the mapping untouched; a non-follow-up
request, or any request for an unknown username, mints the next fresh
identifier, stores it for that username (replacing any old entry),
leaves every other username's entry unchanged, and advances the
identifier supply. -/
theorem C6_session_reuse_and_replace (st : SessState) (u : String) :
    (∀ sid, st.sessions u = some sid →
      getWorkoutSessionId st u true = (sid, st)) ∧
    (∀ isF : Bool, isF = false ∨ st.sessions u = none →
      (getWorkoutSessionId st u isF).1 = mkSessionId st.counter ∧
      ((getWorkoutSessionId st u isF).2).sessions u =
        some (mkSessionId st.counter) ∧
      (∀ u', u' ≠ u →
        ((getWorkoutSessionId st u isF).2).sessions u' = st.sessions u') ∧
      ((getWorkoutSessionId st u isF).2).counter = st.counter + 1) := by
  constructor
  · intro sid hsid
    unfold getWorkoutSessionId
    simp [hsid]
  · intro isF hisF
    have hbranch :
        getWorkoutSessionId st u isF =
          (mkSessionId st.counter,
           { sessions := fun u' =>
               if u' = u then some (mkSessionId st.counter) else st.sessions u'
             counter := st.counter + 1 }) := by
      unfold getWorkoutSessionId
      rcases hisF with h | h
      · subst h
        cases st.sessions u <;> rfl
      · cases isF <;> simp [h]
    refine ⟨by rw [hbranch], by rw [hbranch]; simp, ?_, by rw [hbranch]⟩
    intro u' hu'
    rw [hbranch]
    simp [hu']

/-- Concrete state for the C6 witness: "alex" already has a session. -/
def st0 : SessState :=
  { sessions := fun u => if u = "alex" then some "session-0" else none
    counter := 1 }

/-- C6 witness: on `st0`, a follow-up for "alex" reuses "session-0"
unchanged, and a non-follow-up for "alex" mints the fresh
identifier "session-1". -/
theorem C6_session_reuse_and_replace_witness :
    getWorkoutSessionId st0 "alex" true = ("session-0", st0) ∧
    (getWorkoutSessionId st0 "alex" false).1 = mkSessionId st0.counter :=
  ⟨(C6_session_reuse_and_replace st0 "alex").1 "session-0" (by simp [st0]),
   ((C6_session_reuse_and_replace st0 "alex").2 false (Or.inl rfl)).1⟩

/-- C10: when `user_data` has no "username" key, the session mapping is
keyed under the literal "anonymous": the resolved username is
"anonymous", the entry produced by any such request is stored under
"anonymous", and an anonymous follow-up request returns exactly the
session stored by the earlier anonymous request, with the state
unchanged. -/
theorem C10_anonymous_shared_session (st : SessState)
    (ud1 ud2 : List (String × String)) (b1 : Bool)
    (h1 : ud1.lookup "username" = none)
    (h2 : ud2.lookup "username" = none) :
    planUsername ud1 = "anonymous" ∧
    ((generatePlanSession st ud1 b1).2).sessions "anonymous" =
      some (generatePlanSession st ud1 b1).1 ∧
    generatePlanSession ((generatePlanSession st ud1 b1).2) ud2 true =
      ((generatePlanSession st ud1 b1).1, (generatePlanSession st ud1 b1).2) := by
  have hp1 : planUsername ud1 = "anonymous" := by simp [planUsername, h1]
  have hp2 : planUsername ud2 = "anonymous" := by simp [planUsername, h2]
  have hstore :
      ((generatePlanSession st ud1 b1).2).sessions "anonymous" =
        some (generatePlanSession st ud1 b1).1 := by
    unfold generatePlanSession
    rw [hp1]
    exact getWorkoutSessionId_stores st "anonymous" b1
  refine ⟨hp1, hstore, ?_⟩
  unfold generatePlanSession
  rw [hp2]
  exact getWorkoutSessionId_reuse _ _ _ hstore

/-- C10 witness: from an empty session state, a first anonymous request
followed by an anonymous follow-up reuses the first request's session. -/
theorem C10_anonymous_shared_session_witness :
    planUsername [("age", "30")] = "anonymous" ∧
    ((generatePlanSession ⟨fun _ => none, 0⟩ [("age", "30")] false).2).sessions
        "anonymous" =
      some (generatePlanSession ⟨fun _ => none, 0⟩ [("age", "30")] false).1 ∧
    generatePlanSession
        ((generatePlanSession ⟨fun _ => none, 0⟩ [("age", "30")] false).2)
        [("mood", "happy")] true =
      ((generatePlanSession ⟨fun _ => none, 0⟩ [("age", "30")] false).1,
       (generatePlanSession ⟨fun _ => none, 0⟩ [("age", "30")] false).2) :=
  C10_anonymous_shared_session ⟨fun _ => none, 0⟩ [("age", "30")]
    [("mood", "happy")] false (by simp) (by simp)

/-- The scan underlying `_last_text_chunk`: it returns the rendered text
of the first qualifying event of its input (the reversed event list),
and the empty string when none qualifies. -/
theorem lastTextChunkAux_spec (l : List EventM) :
    (l.find? eventQualifies = none → lastTextChunkAux l = "") ∧
    (∀ c, l.find? eventQualifies = some (some c) →
      lastTextChunkAux l = renderEvent c) := by
  induction l with
  | nil => simp [lastTextChunkAux]
  | cons e rest ih =>
    cases e with
    | none =>
      constructor
      · intro h
        rw [List.find?_cons_of_neg _ (by simp [eventQualifies])] at h
        simpa [lastTextChunkAux] using ih.1 h
      · intro c h
        rw [List.find?_cons_of_neg _ (by simp [eventQualifies])] at h
        simpa [lastTextChunkAux] using ih.2 c h
    | some c0 =>
      by_cases hq : (eventTexts c0).isEmpty = true
      · have hneg : ¬ (eventQualifies (some c0) = true) := by
          simp [eventQualifies, hq]
        constructor
        · intro h
          rw [List.find?_cons_of_neg _ hneg] at h
          simpa [lastTextChunkAux, hq] using ih.1 h
        · intro c h
          rw [List.find?_cons_of_neg _ hneg] at h
          simpa [lastTextChunkAux, hq] using ih.2 c h
      · have hpos : eventQualifies (some c0) = true := by
          simp [eventQualifies, hq]
        constructor
        · intro h
          rw [List.find?_cons_of_pos _ hpos] at h
          exact absurd h (by simp)
        · intro c h
          rw [List.find?_cons_of_pos _ hpos] at h
          have : c0 = c := by simpa using h
          subst this
          simp [lastTextChunkAux, hq]

/-- C8: the reply extracted from a summarize run is the joined, stripped
text of the most recent event (first qualifying event of the reversed
event sequence) that has at least one non-empty, non-thought text part;
it is the empty string when no event qualifies; and a failing underlying
run yields the fixed fallback message instead of an exception. -/
theorem C8_summarize_extraction (e : String) (events : List EventM) :
    summarize (.error e) = summaryFallback ∧
    (events.reverse.find? eventQualifies = none →
      summarize (.ok events) = "") ∧
    (∀ c, events.reverse.find? eventQualifies = some (some c) →
      summarize (.ok events) = renderEvent c) := by
  refine ⟨rfl, ?_, ?_⟩
  · intro h
    exact (lastTextChunkAux_spec events.reverse).1 h
  · intro c h
    exact (lastTextChunkAux_spec events.reverse).2 c h

/-- C8 witness: a concrete event sequence — an old reply, a thought-only
event and a contentless event — yields the most recent real reply, and
a failed run yields the fallback. -/
theorem C8_summarize_extraction_witness :
    summarize (.error "boom") = summaryFallback ∧
    summarize (.ok [some ⟨some [⟨some "old", false⟩]⟩,
      some ⟨some [⟨some "new", false⟩]⟩,
      some ⟨some [⟨some "think", true⟩]⟩, none]) =
      renderEvent ⟨some [⟨some "new", false⟩]⟩ :=
  ⟨(C8_summarize_extraction "boom" []).1,
   (C8_summarize_extraction "irrelevant"
      [some ⟨some [⟨some "old", false⟩]⟩,
       some ⟨some [⟨some "new", false⟩]⟩,
       some ⟨some [⟨some "think", true⟩]⟩, none]).2.2
     ⟨some [⟨some "new", false⟩]⟩ (by decide)⟩

/-- C9: the in-process fallback tool ignores `age`, `mood` and
`exercise_minutes` for filtering — two calls on the same database that
differ only in those arguments return identical exercise lists and
counts; only the `filters_applied` echo reflects them. -/
theorem C9_age_mood_minutes_ignored (db : List Row) (cols : List String)
    (limit : Nat) (age₁ age₂ : Option Int) (mood₁ mood₂ : Option String)
    (em₁ em₂ : Option Int) (dg it rs : Option String) :
    (suggest_workout_plan db cols ⟨age₁, dg, it, mood₁, rs, em₁⟩ limit).exercises =
      (suggest_workout_plan db cols ⟨age₂, dg, it, mood₂, rs, em₂⟩ limit).exercises ∧
    (suggest_workout_plan db cols ⟨age₁, dg, it, mood₁, rs, em₁⟩ limit).count =
      (suggest_workout_plan db cols ⟨age₂, dg, it, mood₂, rs, em₂⟩ limit).count ∧
    (suggest_workout_plan db cols ⟨age₁, dg, it, mood₁, rs, em₁⟩ limit).filters_applied =
      ⟨age₁, dg, it, mood₁, rs, em₁⟩ ∧
    (suggest_workout_plan db cols ⟨age₂, dg, it, mood₂, rs, em₂⟩ limit).filters_applied =
      ⟨age₂, dg, it, mood₂, rs, em₂⟩ :=
  ⟨rfl, rfl, rfl, rfl⟩

/-- `take` of a non-empty list with a positive bound is non-empty. -/
theorem take_ne_nil (l : List Row) (n : Nat) (hl : l ≠ []) (hn : 1 ≤ n) :
    l.take n ≠ [] := by
  cases l with
  | nil => exact absurd rfl hl
  | cons x t =>
    cases n with
    | zero => omega
    | succ m => simp

/-- C3: when the applied filters match no rows, both search
implementations return the unfiltered sample truncated to the limit —
non-empty whenever the dataset is non-empty and the limit is at least 1
(on the server path each sampled row additionally passes the NaN/None
cleaning loop). -/
theorem C3_empty_match_falls_back (db df : List Row) (cols pcols : List String)
    (f : Filters) (limit : Nat)
    (hdb : db ≠ []) (hdf : df ≠ []) (hlim : 1 ≤ limit)
    (hw : db.filter (rowMatchesSql (workoutConds cols f)) = [])
    (hp : df.filter (rowMatchesPandas (pandasConds pcols f)) = []) :
    ((suggest_workout_plan db cols f limit).exercises = db.take limit ∧
      (suggest_workout_plan db cols f limit).exercises ≠ []) ∧
    ((search_exercises false none [] (.ok df) pcols f limit).exercises =
        (df.take limit).map cleanRowTop ∧
      (search_exercises false none [] (.ok df) pcols f limit).exercises ≠ []) := by
  constructor
  · have hex : (suggest_workout_plan db cols f limit).exercises = db.take limit := by
      simp [suggest_workout_plan, hw]
    exact ⟨hex, by rw [hex]; exact take_ne_nil db limit hdb hlim⟩
  · have hex : (search_exercises false none [] (.ok df) pcols f limit).exercises =
        (df.take limit).map cleanRowTop := by
      simp [search_exercises, kagglePath, hp]
    refine ⟨hex, ?_⟩
    rw [hex]
    simpa using take_ne_nil df limit hdf hlim

/-- C3 witness: a one-row dataset with an unmatched intensity filter
still returns the sampled row on both paths. -/
theorem C3_empty_match_falls_back_witness :
    (suggest_workout_plan [[("intensity", Cell.str "low")]] ["intensity"]
        ⟨none, none, some "high", none, none, none⟩ 10).exercises =
      [[("intensity", Cell.str "low")]] ∧
    (search_exercises false none [] (.ok [[("intensity", Cell.str "low")]])
        ["intensity"] ⟨none, none, some "high", none, none, none⟩ 10).exercises =
      [[("intensity", Cell.str "low")]] := by
  have h := C3_empty_match_falls_back [[("intensity", Cell.str "low")]]
    [[("intensity", Cell.str "low")]] ["intensity"] ["intensity"]
    ⟨none, none, some "high", none, none, none⟩ 10
    (by decide) (by decide) (by decide) (by decide) (by decide)
  exact ⟨by rw [h.1.1]; decide, by rw [h.2.1]; decide⟩

/-- The server's per-row cleaning loop leaves no NaN entry behind. -/
theorem cleanRowTop_noNan (r : Row) : rowNoNan (cleanRowTop r) = true := by
  simp only [rowNoNan, cleanRowTop, List.all_eq_true]
  intro kv hkv
  have h := (List.mem_filter.mp hkv).2
  simp only [Bool.and_eq_true, bne_iff_ne, ne_eq] at h
  simpa using h.2
/-- The in-process tool only returns rows of its database. -/
theorem suggest_workout_plan_subset (db : List Row) (cols : List String)
    (f : Filters) (limit : Nat) :
    (suggest_workout_plan db cols f limit).exercises ⊆ db := by
  simp only [suggest_workout_plan]
  split
  · exact List.take_subset _ _
  · exact fun x hx =>
      List.Sublist.subset (List.filter_sublist _) (List.take_subset _ _ hx)

/-- When the SQLite branch answers, its rows come from the local table. -/
theorem sqliteBranchHit_subset (db : List Row) (scols : List String)
    (f : Filters) (limit : Nat) (ex : List Row)
    (h : sqliteBranchHit db scols f limit = some ex) : ex ⊆ db := by
  simp only [sqliteBranchHit] at h
  split at h
  · exact absurd h (by simp)
  · cases h
    exact fun x hx =>
      List.Sublist.subset (List.filter_sublist _) (List.take_subset _ _ hx)

/-- The Kaggle path always reports `count` equal to the number of rows,
and only returns rows that passed the cleaning loop. -/
theorem kagglePath_spec (dfo : Except String (List Row))
    (pcols : List String) (f : Filters) (limit : Nat) :
    (kagglePath dfo pcols f limit).count =
      (kagglePath dfo pcols f limit).exercises.length ∧
    ∀ r ∈ (kagglePath dfo pcols f limit).exercises, rowNoNan r = true := by
  cases dfo with
  | error e => exact ⟨rfl, by intro r hr; simp [kagglePath] at hr⟩
  | ok df =>
    refine ⟨rfl, ?_⟩
    intro r hr
    simp only [kagglePath] at hr
    obtain ⟨r0, _, rfl⟩ := List.mem_map.mp hr
    exact cleanRowTop_noNan r0

/-- C2: on both transport backends — the in-process fallback tool and
the MCP server's search tool, the latter on each of its branches — the
returned mapping satisfies `count == len(exercises)` and every returned
row is NaN-free.  The NaN-freedom hypotheses on `db` and `sdb` record
that SQLite storage cannot hold a NaN (binding one stores NULL); the
pandas rows in `dfo` may contain NaN freely, since that path cleans
them. -/
theorem C2_count_matches_and_no_nan (db : List Row) (cols : List String)
    (f : Filters) (limit : Nat) (useSqlite : Bool) (sdb : Option (List Row))
    (scols pcols : List String) (dfo : Except String (List Row))
    (hdb : ∀ r ∈ db, rowNoNan r = true)
    (hsdb : ∀ l, sdb = some l → ∀ r ∈ l, rowNoNan r = true) :
    ((suggest_workout_plan db cols f limit).count =
        (suggest_workout_plan db cols f limit).exercises.length ∧
      ∀ r ∈ (suggest_workout_plan db cols f limit).exercises,
        rowNoNan r = true) ∧
    ((search_exercises useSqlite sdb scols dfo pcols f limit).count =
        (search_exercises useSqlite sdb scols dfo pcols f limit).exercises.length ∧
      ∀ r ∈ (search_exercises useSqlite sdb scols dfo pcols f limit).exercises,
        rowNoNan r = true) := by
  refine ⟨⟨rfl, fun r hr => hdb r (suggest_workout_plan_subset db cols f limit hr)⟩, ?_⟩
  unfold search_exercises
  cases hhit : (if useSqlite then
      sdb.bind (fun db' => sqliteBranchHit db' scols f limit) else none) with
  | none => exact kagglePath_spec dfo pcols f limit
  | some ex =>
    refine ⟨rfl, ?_⟩
    intro r hr
    cases useSqlite with
    | false => simp at hhit
    | true =>
      rw [if_pos rfl] at hhit
      cases hsd : sdb with
      | none => rw [hsd] at hhit; simp at hhit
      | some l =>
        rw [hsd] at hhit
        simp only [Option.some_bind] at hhit
        have hsub := sqliteBranchHit_subset l scols f limit ex hhit
        exact hsdb l hsd r (hsub hr)

/-- C2 witness: concrete instantiation — a one-row SQLite table on the
in-process path, and a pandas row containing a NaN cell on the server
path (the NaN key is cleaned away). -/
theorem C2_count_matches_and_no_nan_witness :
    ((suggest_workout_plan [[("name", Cell.str "pushup")]] ["name"]
        ⟨none, none, none, none, none, none⟩ 5).count =
      (suggest_workout_plan [[("name", Cell.str "pushup")]] ["name"]
        ⟨none, none, none, none, none, none⟩ 5).exercises.length ∧
      ∀ r ∈ (suggest_workout_plan [[("name", Cell.str "pushup")]] ["name"]
        ⟨none, none, none, none, none, none⟩ 5).exercises,
        rowNoNan r = true) ∧
    ((search_exercises false none [] (.ok [[("x", Cell.nan), ("y", Cell.int 3)]])
        ["x"] ⟨none, none, none, none, none, none⟩ 5).count =
      (search_exercises false none [] (.ok [[("x", Cell.nan), ("y", Cell.int 3)]])
        ["x"] ⟨none, none, none, none, none, none⟩ 5).exercises.length ∧
      ∀ r ∈ (search_exercises false none []
        (.ok [[("x", Cell.nan), ("y", Cell.int 3)]])
        ["x"] ⟨none, none, none, none, none, none⟩ 5).exercises,
        rowNoNan r = true) :=
  C2_count_matches_and_no_nan [[("name", Cell.str "pushup")]] ["name"]
    ⟨none, none, none, none, none, none⟩ 5 false none [] ["x"]
    (.ok [[("x", Cell.nan), ("y", Cell.int 3)]])
    (by decide) (by simp)

/-- C4 counterexample: on a table whose only candidate column is
`level`, the SQLite branch of `search_exercises` builds no intensity
condition at all and returns the row whose level does not contain the
requested intensity, from source "sqlite" — even though `level` is the
first of the claimed candidate columns {intensity, difficulty, level}
present, so the claimed behaviour would have filtered the row out. -/
theorem C4_counterexample_sqlite_level_skipped :
    probeCol ["intensity", "difficulty", "level"] ["level"] = some "level" ∧
    containsCI "low" "high" = false ∧
    sqliteServerConds ["level"]
      ⟨none, none, some "high", none, none, none⟩ = [] ∧
    (search_exercises true (some [[("level", Cell.str "low")]]) ["level"]
        (.ok []) [] ⟨none, none, some "high", none, none, none⟩ 10).exercises =
      [[("level", Cell.str "low")]] ∧
    (search_exercises true (some [[("level", Cell.str "low")]]) ["level"]
        (.ok []) [] ⟨none, none, some "high", none, none, none⟩ 10).source =
      "sqlite" := by
  decide

/-- For a non-empty filter string, the probe-based condition builder
resolves to the first present candidate column. -/
theorem probeCond_some (cols : List String) (s : String) (hs : s ≠ "")
    (cands : List String) (neg : Bool) :
    probeCond cands cols (some s) neg =
      (match probeCol cands cols with
       | some c => [⟨c, strToLower s, neg⟩]
       | none => []) := by
  cases h : probeCol cands cols <;> simp [probeCond, truthy, hs, h]

/-- When the first candidate is absent and the second present, the probe
resolves to the second candidate. -/
theorem probeCol_second (cols : List String) (c₁ c₂ : String)
    (rest : List String) (h₁ : c₁ ∉ cols) (h₂ : c₂ ∈ cols) :
    probeCol (c₁ :: c₂ :: rest) cols = some c₂ := by
  unfold probeCol
  rw [List.find?_cons_of_neg _ (by simpa using h₁),
    List.find?_cons_of_pos _ (by simpa using h₂)]

/-- C4 (amended): with a non-empty intensity filter,
`workout_tool.suggest_workout_plan` and the pandas branch of
`search_exercises` probe candidate columns in the order
{intensity, difficulty, level} and build one case-insensitive substring
condition on the first column present (none present ⇒ no condition);
the SQLite branch of `search_exercises` probes only
{intensity, difficulty}.  In particular, on a dataset having only a
"difficulty" column, intensity filtering takes effect in all three
implementations, and the built condition is decided by the
case-insensitive substring test on the row's cell. -/
theorem C4_intensity_probing_amended (cols : List String) (s : String)
    (hs : s ≠ "") :
    (workoutConds cols ⟨none, none, some s, none, none, none⟩ =
      (match probeCol ["intensity", "difficulty", "level"] cols with
       | some c => [⟨c, strToLower s, false⟩]
       | none => [])) ∧
    (pandasConds cols ⟨none, none, some s, none, none, none⟩ =
      workoutConds cols ⟨none, none, some s, none, none, none⟩) ∧
    (sqliteServerConds cols ⟨none, none, some s, none, none, none⟩ =
      (match probeCol ["intensity", "difficulty"] cols with
       | some c => [⟨c, strToLower s, false⟩]
       | none => [])) ∧
    ("intensity" ∉ cols → "difficulty" ∈ cols →
      workoutConds cols ⟨none, none, some s, none, none, none⟩ =
        [⟨"difficulty", strToLower s, false⟩] ∧
      pandasConds cols ⟨none, none, some s, none, none, none⟩ =
        [⟨"difficulty", strToLower s, false⟩] ∧
      sqliteServerConds cols ⟨none, none, some s, none, none, none⟩ =
        [⟨"difficulty", strToLower s, false⟩]) ∧
    (∀ (r : Row) (c : String) (v : Cell), r.lookup c = some v →
      v ≠ Cell.null →
      rowSatSql r ⟨c, strToLower s, false⟩ =
        containsCI (cellSqlText v) (strToLower s) ∧
      rowSatPandas r ⟨c, strToLower s, false⟩ =
        containsCI (cellPyStr v) (strToLower s)) := by
  have hnone : ∀ cands neg, probeCond cands cols none neg = [] :=
    fun _ _ => rfl
  have hw : workoutConds cols ⟨none, none, some s, none, none, none⟩ =
      (match probeCol ["intensity", "difficulty", "level"] cols with
       | some c => [⟨c, strToLower s, false⟩]
       | none => []) := by
    simp [workoutConds, probeCond_some cols s hs, hnone]
  have hq : pandasConds cols ⟨none, none, some s, none, none, none⟩ =
      (match probeCol ["intensity", "difficulty", "level"] cols with
       | some c => [⟨c, strToLower s, false⟩]
       | none => []) := by
    simp [pandasConds, probeCond_some cols s hs, hnone]
  have hsq : sqliteServerConds cols ⟨none, none, some s, none, none, none⟩ =
      (match probeCol ["intensity", "difficulty"] cols with
       | some c => [⟨c, strToLower s, false⟩]
       | none => []) := by
    simp [sqliteServerConds, probeCond_some cols s hs, hnone]
  refine ⟨hw, by rw [hq, hw], hsq, ?_, ?_⟩
  · intro hint hdiff
    have h3 : probeCol ["intensity", "difficulty", "level"] cols =
        some "difficulty" := probeCol_second cols _ _ _ hint hdiff
    have h2 : probeCol ["intensity", "difficulty"] cols =
        some "difficulty" := probeCol_second cols _ _ _ hint hdiff
    exact ⟨by rw [hw, h3], by rw [hq, h3], by rw [hsq, h2]⟩
  · intro r c v hv hvnull
    have hsql : sqlLike v (strToLower s) =
        some (containsCI (cellSqlText v) (strToLower s)) := by
      cases v <;> first | rfl | exact absurd rfl hvnull
    constructor
    · simp [rowSatSql, hv, hsql]
    · simp [rowSatPandas, hv]

/-- C4 witness: on a table with only a "difficulty" column, intensity
"Moderate" resolves to one lower-cased substring condition on
"difficulty" in all three implementations. -/
theorem C4_intensity_probing_amended_witness :
    workoutConds ["difficulty"] ⟨none, none, some "Moderate", none, none, none⟩ =
      [⟨"difficulty", strToLower "Moderate", false⟩] ∧
    pandasConds ["difficulty"] ⟨none, none, some "Moderate", none, none, none⟩ =
      [⟨"difficulty", strToLower "Moderate", false⟩] ∧
    sqliteServerConds ["difficulty"]
        ⟨none, none, some "Moderate", none, none, none⟩ =
      [⟨"difficulty", strToLower "Moderate", false⟩] :=
  (C4_intensity_probing_amended ["difficulty"] "Moderate" (by decide)).2.2.2.1
    (by decide) (by decide)
